import Mathlib

/-!
Shallow embedding of the Tawhiri HTTP API layer (`tawhiri/api.py`).

Python floats are modelled as rationals (`ℚ`); the external collaborators
(elevation HTTP service, wind-dataset store, solver, RFC3339 codec) are
modelled as explicit outcome values / functions supplied in a context, since
they live outside this repository's visible source.  Python exceptions are
modelled by `Except Failure`: `Failure.api` is an `APIException` subclass
(handled by the registered error handler), `Failure.unhandled` is any other
Python exception (KeyError, AssertionError, TypeError, ...), which the API's
error handler does not catch.
-/

namespace Tawhiri

/-- api.py line 43: `API_VERSION = 1`. -/
def API_VERSION : Nat := 1

/-- api.py line 44. -/
def LATEST_DATASET_KEYWORD : String := "latest"

/-- api.py line 45. -/
def PROFILE_STANDARD : String := "standard_profile"

/-- api.py line 46. -/
def PROFILE_FLOAT : String := "float_profile"

/-- api.py line 47. -/
def PROFILE_REVERSE : String := "reverse_profile"

/-- api.py line 48: `STANDARD_FORMAT = "json"`. -/
def STANDARD_FORMAT : String := "json"

/-- The `APIException` subclasses of api.py lines 70-112, each carrying the
message it was constructed with (`str(error)` in `handle_exception`). -/
inductive APIError where
  | requestException (msg : String)
  | invalidDatasetException (msg : String)
  | predictionException (msg : String)
  | internalException (msg : String)
  | notYetImplementedException (msg : String)
deriving DecidableEq, Repr

/-- The `status_code` class attribute of each `APIException` subclass
(api.py lines 74, 84, 91, 98, 105, 112). -/
def statusCode : APIError → Nat
  | .requestException _ => 400
  | .invalidDatasetException _ => 404
  | .predictionException _ => 500
  | .internalException _ => 500
  | .notYetImplementedException _ => 501

/-- `type(error).__name__` of each `APIException` subclass. -/
def apiTypeName : APIError → String
  | .requestException _ => "RequestException"
  | .invalidDatasetException _ => "InvalidDatasetException"
  | .predictionException _ => "PredictionException"
  | .internalException _ => "InternalException"
  | .notYetImplementedException _ => "NotYetImplementedException"

/-- `str(error)` of each `APIException` subclass (its single message). -/
def apiDescription : APIError → String
  | .requestException msg => msg
  | .invalidDatasetException msg => msg
  | .predictionException msg => msg
  | .internalException msg => msg
  | .notYetImplementedException msg => msg

/-- A raised Python exception: either an `APIException` (caught by the
registered error handler) or any other exception (`name`, `str(e)`), which
the error handler of api.py line 434 does not handle. -/
inductive Failure where
  | api (e : APIError)
  | unhandled (name : String) (msg : String)
deriving DecidableEq, Repr

/-- `str(e)` of a raised exception, as used in `"%s" % str(e)` formatting. -/
def excStr : Failure → String
  | .api e => apiDescription e
  | .unhandled _ msg => msg

/-- The error body built by `handle_exception` (api.py lines 434-447). -/
structure ErrorBody where
  errType : String
  description : String
deriving DecidableEq, Repr

/-- api.py lines 434-447: `@app.errorhandler(APIException)` registers
`handle_exception` for `APIException` only; it returns the structured error
body and the exception's status code.  Any non-`APIException` exception is
not given a structured body (Flask's generic 500 applies), modelled by
`none`. -/
def handle_exception : Failure → Option (ErrorBody × Nat)
  | .api e => some ({ errType := apiTypeName e, description := apiDescription e }, statusCode e)
  | .unhandled _ _ => none

/-- api.py lines 115-123: lower-bound clipping for ascent and descent rates.
The Python default argument `minimum_rate=0.2` is passed explicitly
(as `minimumRate`) at every call site. -/
def rate_clip (rate : ℚ) (minimum_rate : ℚ) : ℚ :=
  if rate < minimum_rate then minimum_rate else rate

/-- The Python literal `0.2` of `rate_clip`'s default argument, written in
reduced `num/den` form so that the kernel can evaluate comparisons with it
(`minimumRate_eq` identifies it with the decimal literal). -/
def minimumRate : ℚ := ⟨1, 5, by decide, by decide⟩

/-- `minimumRate` is exactly the rational `0.2`. -/
theorem minimumRate_eq : minimumRate = (0.2 : ℚ) := by
  rw [minimumRate, Rat.mk'_eq_divInt, Rat.divInt_eq_div]
  norm_num

/-- Decidable equality of `Except` results (component-wise). -/
instance {ε α : Type} [DecidableEq ε] [DecidableEq α] : DecidableEq (Except ε α) :=
  fun x y =>
    match x, y with
    | .error a, .error b =>
      if h : a = b then .isTrue (congrArg Except.error h)
      else .isFalse (fun hh => h (by cases hh; rfl))
    | .error _, .ok _ => .isFalse (fun hh => Except.noConfusion hh)
    | .ok _, .error _ => .isFalse (fun hh => Except.noConfusion hh)
    | .ok a, .ok b =>
      if h : a = b then .isTrue (congrArg Except.ok h)
      else .isFalse (fun hh => h (by cases hh; rfl))

/-- One raw query-string value (`request.args` entries are strings).
`asFloat` is the result of Python `float(x)` (`none` = the cast raises),
`asTimestamp` the result of `strict_rfc3339.rfc3339_to_timestamp(x)`
(`none` = it raises), and `rawString` the string itself: it is both the
result of the `str` cast and the `%s`-interpolation of the value into
error messages. -/
structure RawParam where
  asFloat : Option ℚ
  asTimestamp : Option ℚ
  rawString : String
deriving DecidableEq, Repr

/-- api.py lines 242-264, `_extract_parameter`: pull `parameter` out of the
request data, apply `cast`, apply the optional `validator`; a missing
parameter returns the default (possibly `none`) when a default is given or
`ignore` is set, and raises `RequestException` otherwise. -/
def extractParameter {α : Type} (data : List (String × RawParam)) (parameter : String)
    (cast : RawParam → Option α) (dft : Option α) (ignore : Bool)
    (validator : Option (α → Bool)) : Except Failure (Option α) :=
  match data.lookup parameter with
  | none =>
    if dft.isNone && !ignore then
      .error (.api (.requestException
        ("Parameter '" ++ parameter ++ "' not provided in request.")))
    else
      .ok dft
  | some raw =>
    match cast raw with
    | none =>
      .error (.api (.requestException
        ("Unable to parse parameter '" ++ parameter ++ "': " ++ raw.rawString ++ ".")))
    | some result =>
      match validator with
      | some v =>
        if v result then .ok (some result)
        else
          .error (.api (.requestException
            ("Invalid value for parameter '" ++ parameter ++ "': " ++ raw.rawString ++ ".")))
      | none => .ok (some result)

/-- Outcome of the single outbound elevation lookup of api.py lines 151-172
(the Ruaumoko elevation service is an external collaborator):
`success e` = HTTP 200 whose JSON body holds `results[0]["elevation"] = e`;
the remaining constructors are the failure modes (non-200 status, body that
is not JSON, 200-body without the result fields, and a raised network
error). -/
inductive ElevationOutcome where
  | success (elevation : ℚ)
  | non200 (status : Nat)
  | malformedBody
  | missingResult
  | networkError
deriving DecidableEq, Repr

/-- api.py lines 151-172: the elevation block.  Every failure path (the two
`ElevationAPIException` raises, the JSON/key errors, the network error) is
caught by the `except Exception` arm, which sets the altitude to `0.0`; the
`else` arm stores the looked-up elevation. -/
def elevationLookup : ElevationOutcome → ℚ
  | .success elevation => elevation
  | .non200 _ => 0
  | .malformedBody => 0
  | .missingResult => 0
  | .networkError => 0

/-- The value stored under `req['dataset']` by `parse_request`: either the
default `LATEST_DATASET_KEYWORD` string or the parsed RFC3339 timestamp
(a float in Python; the dict value is a union of the two). -/
inductive DatasetParam where
  | latest
  | time (t : ℚ)
deriving DecidableEq, Repr

/-- The fields of `tawhiri_ds.ds_time` that `strftime("%Y-%m-%dT%H:00:00Z")`
reads (minutes and seconds are forced to `00` by the format string). -/
structure DateTime where
  year : Nat
  month : Nat
  day : Nat
  hour : Nat
deriving DecidableEq, Repr

/-- The resolved wind dataset handle (`tawhiri.dataset.Dataset` is an
external collaborator); only its `ds_time` is read by this layer. -/
structure DatasetHandle where
  ds_time : DateTime
deriving DecidableEq, Repr

/-- What the dataset store raises (or returns) when `run_prediction` tries
to open a dataset (api.py lines 285-289): `WindDataset.open_latest` /
`WindDataset(datetime.fromtimestamp(...))` either returns a handle, raises
`IOError`, raises `ValueError(msg)`, or raises some other exception
(`name`, `str`). -/
inductive StoreOutcome where
  | ok (handle : DatasetHandle)
  | ioError
  | valueError (msg : String)
  | otherError (name : String) (msg : String)
deriving DecidableEq, Repr

/-- api.py lines 284-293: the dataset `try/except`.  `IOError` becomes
`InvalidDatasetException("No matching dataset found.")`; `ValueError`
becomes `InvalidDatasetException(*e.args)` (modelled with a single message
argument); there is no further `except` arm, so any other exception
propagates unhandled. -/
def resolveDataset : StoreOutcome → Except Failure DatasetHandle
  | .ok handle => .ok handle
  | .ioError => .error (.api (.invalidDatasetException "No matching dataset found."))
  | .valueError msg => .error (.api (.invalidDatasetException msg))
  | .otherError name msg => .error (.unhandled name msg)

/-- CPython `strftime` zero-pads `%m`, `%d`, `%H` to two digits. -/
def zeroPad2 (n : Nat) : String :=
  if n < 10 then "0" ++ toString n else toString n

/-- CPython `strftime` zero-pads `%Y` to four digits. -/
def zeroPad4 (n : Nat) : String :=
  if n < 10 then "000" ++ toString n
  else if n < 100 then "00" ++ toString n
  else if n < 1000 then "0" ++ toString n
  else toString n

/-- api.py lines 296-297 (and 229-230):
`tawhiri_ds.ds_time.strftime("%Y-%m-%dT%H:00:00Z")`. -/
def formatDatasetTime (t : DateTime) : String :=
  zeroPad4 t.year ++ "-" ++ zeroPad2 t.month ++ "-" ++ zeroPad2 t.day ++ "T" ++
    zeroPad2 t.hour ++ ":00:00Z"

/-- The `req` dict built by `parse_request` (api.py lines 129-207).  Every
field is an `Option`, mirroring dict-key presence: `none` = the key is
absent (or holds Python `None`, for `launch_altitude` before resolution;
after `parse_request` returns, `launch_altitude` is always `some`). -/
structure ParsedRequest where
  version : Nat
  launch_latitude : Option ℚ
  launch_longitude : Option ℚ
  launch_datetime : Option ℚ
  launch_altitude : Option ℚ
  format : Option String
  profile : Option String
  ascent_rate : Option ℚ
  burst_altitude : Option ℚ
  descent_rate : Option ℚ
  float_altitude : Option ℚ
  stop_datetime : Option ℚ
  dataset : Option DatasetParam
deriving DecidableEq, Repr

/-- Ambient behaviour of the elevation collaborator during `parse_request`
(what the single lookup of api.py line 154 would observe). -/
structure ParseContext where
  elevation : ElevationOutcome

/-- Reading a value that Python would have as a dict entry / non-`None`
value: `none` raises the named non-`APIException` exception (KeyError for a
missing dict key, TypeError for an operation on `None`). -/
def pyGet {α : Type} (o : Option α) (excName : String) (msg : String) :
    Except Failure α :=
  match o with
  | some v => .ok v
  | none => .error (.unhandled excName msg)

/-- api.py lines 136-138. -/
def extractLaunchLatitude (data : List (String × RawParam)) : Except Failure (Option ℚ) :=
  extractParameter data "launch_latitude" (fun r => r.asFloat) none false
    (some (fun x => decide (-90 ≤ x ∧ x ≤ 90)))

/-- api.py lines 139-141. -/
def extractLaunchLongitude (data : List (String × RawParam)) : Except Failure (Option ℚ) :=
  extractParameter data "launch_longitude" (fun r => r.asFloat) none false
    (some (fun x => decide (0 ≤ x ∧ x < 360)))

/-- api.py lines 142-143. -/
def extractLaunchDatetime (data : List (String × RawParam)) : Except Failure (Option ℚ) :=
  extractParameter data "launch_datetime" (fun r => r.asTimestamp) none false none

/-- api.py lines 144-145 (`ignore=True`). -/
def extractLaunchAltitude (data : List (String × RawParam)) : Except Failure (Option ℚ) :=
  extractParameter data "launch_altitude" (fun r => r.asFloat) none true none

/-- api.py lines 147-148 (default `STANDARD_FORMAT`, cast `str`). -/
def extractFormat (data : List (String × RawParam)) : Except Failure (Option String) :=
  extractParameter data "format" (fun r => some r.rawString) (some STANDARD_FORMAT) false none

/-- api.py lines 175-176 (default `PROFILE_STANDARD`, cast `str`). -/
def extractProfile (data : List (String × RawParam)) : Except Failure (Option String) :=
  extractParameter data "profile" (fun r => some r.rawString) (some PROFILE_STANDARD) false none

/-- The `ascent_rate` extraction shared by all three profile branches
(api.py lines 181, 189, 198): validator `x > 0`. -/
def extractAscentRate (data : List (String × RawParam)) : Except Failure (Option ℚ) :=
  extractParameter data "ascent_rate" (fun r => r.asFloat) none false
    (some (fun x => decide (0 < x)))

/-- api.py lines 183-185: validator `x > launch_alt`. -/
def extractBurstAltitude (data : List (String × RawParam)) (launch_alt : ℚ) :
    Except Failure (Option ℚ) :=
  extractParameter data "burst_altitude" (fun r => r.asFloat) none false
    (some (fun x => decide (launch_alt < x)))

/-- api.py lines 186-187: validator `x > 0`. -/
def extractDescentRate (data : List (String × RawParam)) : Except Failure (Option ℚ) :=
  extractParameter data "descent_rate" (fun r => r.asFloat) none false
    (some (fun x => decide (0 < x)))

/-- api.py lines 191-193: validator `x > launch_alt`. -/
def extractFloatAltitude (data : List (String × RawParam)) (launch_alt : ℚ) :
    Except Failure (Option ℚ) :=
  extractParameter data "float_altitude" (fun r => r.asFloat) none false
    (some (fun x => decide (launch_alt < x)))

/-- api.py lines 194-196: validator `x > req['launch_datetime']`.  The
`launch_datetime` key is necessarily present (required parameter) when this
runs; `Option.getD` supplies the comparison value. -/
def extractStopDatetime (data : List (String × RawParam)) (launch_datetime : Option ℚ) :
    Except Failure (Option ℚ) :=
  extractParameter data "stop_datetime" (fun r => r.asTimestamp) none false
    (some (fun x => decide (launch_datetime.getD 0 < x)))

/-- api.py lines 204-205 (default `LATEST_DATASET_KEYWORD`, cast
`_rfc3339_to_timestamp`). -/
def extractDataset (data : List (String × RawParam)) : Except Failure (Option DatasetParam) :=
  extractParameter data "dataset" (fun r => r.asTimestamp.map DatasetParam.time)
    (some DatasetParam.latest) false none

/-- The `%s`-interpolation of `req['profile']` into the unknown-profile
message (Python renders `None` as `"None"`). -/
def profileRepr : Option String → String
  | some s => s
  | none => "None"

/-- api.py lines 150-172 condensed to its dataflow: the value
`req['launch_altitude']` holds after the elevation block — the provided
altitude when one was extracted, otherwise the lookup result (with every
lookup failure collapsed to `0.0` by `elevationLookup`).  Both paths of the
Python `if` assign a numeric value, so the result is total. -/
def resolveLaunchAltitude (elev : ElevationOutcome) : Option ℚ → ℚ
  | some a => a
  | none => elevationLookup elev

/-- api.py lines 129-207, `parse_request`.  The sequencing follows the
source: generic fields, elevation fallback (`resolveLaunchAltitude`),
profile branch (each branch applies `rate_clip` to its rates), unknown
profile raises `RequestException` immediately, and the dataset parameter
is extracted only after the profile branch succeeded (the shared dataset
extraction of api.py line 204 is written at the end of each of the three
success branches to keep the definition one linear match chain; the
unknown-profile branch errors before it, exactly as in the source). -/
def parse_request (pctx : ParseContext) (data : List (String × RawParam)) :
    Except Failure ParsedRequest :=
  match extractLaunchLatitude data with
  | .error e => .error e
  | .ok launch_latitude =>
  match extractLaunchLongitude data with
  | .error e => .error e
  | .ok launch_longitude =>
  match extractLaunchDatetime data with
  | .error e => .error e
  | .ok launch_datetime =>
  match extractLaunchAltitude data with
  | .error e => .error e
  | .ok launch_altitude_raw =>
  match extractFormat data with
  | .error e => .error e
  | .ok fm =>
  match extractProfile data with
  | .error e => .error e
  | .ok profile =>
  -- api.py lines 150-172 then line 178: `launch_alt = req["launch_altitude"]`,
  -- the value left by the elevation block (always present and numeric),
  -- written out as `resolveLaunchAltitude pctx.elevation launch_altitude_raw`
  -- at each use.
  if profile = some PROFILE_STANDARD then
    match extractAscentRate data with
    | .error e => .error e
    | .ok ar =>
    match pyGet ar "TypeError" "ascent_rate is None" with
    | .error e => .error e
    | .ok arv =>
    match extractBurstAltitude data (resolveLaunchAltitude pctx.elevation launch_altitude_raw) with
    | .error e => .error e
    | .ok burst_altitude =>
    match extractDescentRate data with
    | .error e => .error e
    | .ok dr =>
    match pyGet dr "TypeError" "descent_rate is None" with
    | .error e => .error e
    | .ok drv =>
    match extractDataset data with
    | .error e => .error e
    | .ok dataset =>
      .ok { version := API_VERSION
            launch_latitude := launch_latitude
            launch_longitude := launch_longitude
            launch_datetime := launch_datetime
            launch_altitude := some (resolveLaunchAltitude pctx.elevation launch_altitude_raw)
            format := fm
            profile := profile
            ascent_rate := some (rate_clip arv minimumRate)
            burst_altitude := burst_altitude
            descent_rate := some (rate_clip drv minimumRate)
            float_altitude := none
            stop_datetime := none
            dataset := dataset }
  else if profile = some PROFILE_FLOAT then
    match extractAscentRate data with
    | .error e => .error e
    | .ok ar =>
    match pyGet ar "TypeError" "ascent_rate is None" with
    | .error e => .error e
    | .ok arv =>
    match extractFloatAltitude data (resolveLaunchAltitude pctx.elevation launch_altitude_raw) with
    | .error e => .error e
    | .ok float_altitude =>
    match extractStopDatetime data launch_datetime with
    | .error e => .error e
    | .ok stop_datetime =>
    match extractDataset data with
    | .error e => .error e
    | .ok dataset =>
      .ok { version := API_VERSION
            launch_latitude := launch_latitude
            launch_longitude := launch_longitude
            launch_datetime := launch_datetime
            launch_altitude := some (resolveLaunchAltitude pctx.elevation launch_altitude_raw)
            format := fm
            profile := profile
            ascent_rate := some (rate_clip arv minimumRate)
            burst_altitude := none
            descent_rate := none
            float_altitude := float_altitude
            stop_datetime := stop_datetime
            dataset := dataset }
  else if profile = some PROFILE_REVERSE then
    match extractAscentRate data with
    | .error e => .error e
    | .ok ar =>
    match pyGet ar "TypeError" "ascent_rate is None" with
    | .error e => .error e
    | .ok arv =>
    match extractDataset data with
    | .error e => .error e
    | .ok dataset =>
      .ok { version := API_VERSION
            launch_latitude := launch_latitude
            launch_longitude := launch_longitude
            launch_datetime := launch_datetime
            launch_altitude := some (resolveLaunchAltitude pctx.elevation launch_altitude_raw)
            format := fm
            profile := profile
            ascent_rate := some (rate_clip arv minimumRate)
            burst_altitude := none
            descent_rate := none
            float_altitude := none
            stop_datetime := none
            dataset := dataset }
  else
    .error (.api (.requestException
      ("Unknown profile '" ++ profileRepr profile ++ "'.")))

/-- One solver output point: the tuple `(dt, lat, lon, alt)` unpacked by
`_parse_stages` (api.py line 381). -/
structure TrajPoint where
  dt : ℚ
  lat : ℚ
  lon : ℚ
  alt : ℚ
deriving DecidableEq, Repr

/-- The stage list built for the solver (api.py lines 300-317): the three
`models.*_profile` constructors are external collaborators, so a stage list
is modelled by the constructor called and the arguments taken from the
request (the shared warning-counter reference is not modelled). -/
inductive StageSpec where
  | standardProfile (ascent_rate burst_altitude descent_rate : ℚ)
      (ds : DatasetHandle) (elevation_api_url : Option String)
  | floatProfile (ascent_rate float_altitude stop_datetime : ℚ) (ds : DatasetHandle)
  | reverseProfile (ascent_rate : ℚ) (ds : DatasetHandle) (elevation_api_url : Option String)
deriving DecidableEq, Repr

/-- The argument list of one `solver.solve` invocation (api.py lines
325-331).  `dt = none` means the keyword argument was not passed, so the
solver's own (forward) default applies; `dt = some d` means `dt=d` was
passed explicitly. -/
structure SolverCall where
  launch_datetime : ℚ
  launch_latitude : ℚ
  launch_longitude : ℚ
  launch_altitude : ℚ
  stages : StageSpec
  dt : Option ℚ
deriving DecidableEq, Repr

/-- What the external solver does on one call: return the per-stage point
lists, or raise an exception whose `str` is `msg`. -/
inductive SolverOutcome where
  | ok (result : List (List TrajPoint))
  | raised (msg : String)
deriving DecidableEq, Repr

/-- The external collaborators and configuration visible to
`run_prediction` and the format dispatch: the dataset store's behaviour,
the solver's behaviour, the `strict_rfc3339` timestamp encoder, the
`ELEVATION_API` config entry, and the warning counters accumulated during
the run (`warningcounts.to_dict()`). -/
structure Context where
  store : DatasetParam → StoreOutcome
  solve : SolverCall → SolverOutcome
  toRfc3339 : ℚ → String
  elevation_api_url : Option String
  warnings : List (String × Nat)

/-- api.py lines 300-319: build the stage list for the request's profile;
a profile that matches none of the three constants raises
`InternalException` (parse_request normally prevents this). -/
def buildStages (ctx : Context) (req : ParsedRequest) (tawhiri_ds : DatasetHandle) :
    Except Failure StageSpec :=
  match pyGet req.profile "KeyError" "'profile'" with
  | .error e => .error e
  | .ok profile =>
  if profile = PROFILE_STANDARD then
    match pyGet req.ascent_rate "KeyError" "'ascent_rate'" with
    | .error e => .error e
    | .ok ar =>
    match pyGet req.burst_altitude "KeyError" "'burst_altitude'" with
    | .error e => .error e
    | .ok ba =>
    match pyGet req.descent_rate "KeyError" "'descent_rate'" with
    | .error e => .error e
    | .ok dr =>
      .ok (.standardProfile ar ba dr tawhiri_ds ctx.elevation_api_url)
  else if profile = PROFILE_FLOAT then
    match pyGet req.ascent_rate "KeyError" "'ascent_rate'" with
    | .error e => .error e
    | .ok ar =>
    match pyGet req.float_altitude "KeyError" "'float_altitude'" with
    | .error e => .error e
    | .ok fa =>
    match pyGet req.stop_datetime "KeyError" "'stop_datetime'" with
    | .error e => .error e
    | .ok sd =>
      .ok (.floatProfile ar fa sd tawhiri_ds)
  else if profile = PROFILE_REVERSE then
    match pyGet req.ascent_rate "KeyError" "'ascent_rate'" with
    | .error e => .error e
    | .ok ar =>
      .ok (.reverseProfile ar tawhiri_ds ctx.elevation_api_url)
  else
    .error (.api (.internalException "No implementation for known profile."))

/-- api.py lines 323-331: the two `solver.solve` call sites.  The reverse
branch passes `dt=-60.0`; the other branch passes no `dt` argument (the
solver default).  Every other argument is the same expression in both
branches. -/
def mkSolverCall (req : ParsedRequest) (stages : StageSpec) : Except Failure SolverCall :=
  match pyGet req.profile "KeyError" "'profile'" with
  | .error e => .error e
  | .ok profile =>
  if profile = PROFILE_REVERSE then
    match pyGet req.launch_datetime "KeyError" "'launch_datetime'" with
    | .error e => .error e
    | .ok t0 =>
    match pyGet req.launch_latitude "KeyError" "'launch_latitude'" with
    | .error e => .error e
    | .ok lat =>
    match pyGet req.launch_longitude "KeyError" "'launch_longitude'" with
    | .error e => .error e
    | .ok lon =>
    match pyGet req.launch_altitude "KeyError" "'launch_altitude'" with
    | .error e => .error e
    | .ok alt =>
      .ok { launch_datetime := t0, launch_latitude := lat, launch_longitude := lon
            launch_altitude := alt, stages := stages, dt := some (-60 : ℚ) }
  else
    match pyGet req.launch_datetime "KeyError" "'launch_datetime'" with
    | .error e => .error e
    | .ok t0 =>
    match pyGet req.launch_latitude "KeyError" "'launch_latitude'" with
    | .error e => .error e
    | .ok lat =>
    match pyGet req.launch_longitude "KeyError" "'launch_longitude'" with
    | .error e => .error e
    | .ok lon =>
    match pyGet req.launch_altitude "KeyError" "'launch_altitude'" with
    | .error e => .error e
    | .ok alt =>
      .ok { launch_datetime := t0, launch_latitude := lat, launch_longitude := lon
            launch_altitude := alt, stages := stages, dt := none }

/-- The body of the `try` of api.py lines 322-331: build the argument list
(dict accesses included) and invoke the solver; a solver exception is
re-raised here as a generic (non-API) exception, to be wrapped by the
`except` arm. -/
def solverAttempt (ctx : Context) (req : ParsedRequest) (stages : StageSpec) :
    Except Failure (List (List TrajPoint)) :=
  match mkSolverCall req stages with
  | .error e => .error e
  | .ok call =>
    match ctx.solve call with
    | .ok r => .ok r
    | .raised msg => .error (.unhandled "Exception" msg)

/-- api.py lines 322-335: `except Exception as e` around the solver call
re-raises everything raised inside the `try` as
`PredictionException("Prediction did not complete: '%s'." % str(e))`. -/
def runSolverSection (ctx : Context) (req : ParsedRequest) (stages : StageSpec) :
    Except Failure (List (List TrajPoint)) :=
  match solverAttempt ctx req stages with
  | .ok r => .ok r
  | .error e =>
    .error (.api (.predictionException
      ("Prediction did not complete: '" ++ excStr e ++ "'.")))

/-- One point of a formatted trajectory stage (api.py lines 376-381). -/
structure RespPoint where
  latitude : ℚ
  longitude : ℚ
  altitude : ℚ
  datetime : String
deriving DecidableEq, Repr

/-- One labeled stage of the formatted prediction (api.py lines 374-382). -/
structure RespStage where
  stage : String
  trajectory : List RespPoint
deriving DecidableEq, Repr

/-- api.py lines 366-383, `_parse_stages`.  The `assert len(labels) ==
len(data)` raises a bare `AssertionError` (not an `APIException`) on a
mismatch; otherwise each leg is labeled positionally and its points are
converted to `{latitude, longitude, altitude, datetime}` records. -/
def _parse_stages (toRfc : ℚ → String) (labels : List String)
    (data : List (List TrajPoint)) : Except Failure (List RespStage) :=
  if labels.length = data.length then
    .ok ((labels.zip data).map (fun p =>
      { stage := p.1
        trajectory := p.2.map (fun q =>
          { latitude := q.lat, longitude := q.lon, altitude := q.alt
            datetime := toRfc q.dt }) }))
  else
    .error (.unhandled "AssertionError" "len(labels) == len(data)")

/-- `resp['launch_estimate']` (api.py lines 346-351). -/
structure LaunchEstimate where
  latitude : ℚ
  longitude : ℚ
  altitude : ℚ
  datetime : String
deriving DecidableEq, Repr

/-- `some_list[-1]` (api.py line 345): the last element, or an unhandled
`IndexError` when the list is empty. -/
def pyLast {α : Type} (l : List α) : Except Failure α :=
  match l.getLast? with
  | some v => .ok v
  | none => .error (.unhandled "IndexError" "list index out of range")

/-- api.py lines 337-354: format the trajectory per profile.  Standard and
reverse use labels `["ascent", "descent"]`, float uses
`["ascent", "float"]`; the reverse branch additionally republishes the last
point of the last stage as `launch_estimate` (with the request's launch
datetime re-encoded). -/
def formatPrediction (toRfc : ℚ → String) (req : ParsedRequest)
    (result : List (List TrajPoint)) :
    Except Failure (List RespStage × Option LaunchEstimate) :=
  match pyGet req.profile "KeyError" "'profile'" with
  | .error e => .error e
  | .ok profile =>
  if profile = PROFILE_STANDARD then
    match _parse_stages toRfc ["ascent", "descent"] result with
    | .error e => .error e
    | .ok prediction => .ok (prediction, none)
  else if profile = PROFILE_FLOAT then
    match _parse_stages toRfc ["ascent", "float"] result with
    | .error e => .error e
    | .ok prediction => .ok (prediction, none)
  else if profile = PROFILE_REVERSE then
    match _parse_stages toRfc ["ascent", "descent"] result with
    | .error e => .error e
    | .ok prediction =>
    match pyLast prediction with
    | .error e => .error e
    | .ok lastStage =>
    match pyLast lastStage.trajectory with
    | .error e => .error e
    | .ok site =>
    match pyGet req.launch_datetime "KeyError" "'launch_datetime'" with
    | .error e => .error e
    | .ok ldt =>
      .ok (prediction, some { latitude := site.latitude, longitude := site.longitude
                              altitude := site.altitude, datetime := toRfc ldt })
  else
    .error (.api (.internalException "No implementation for known profile."))

/-- The echoed request block of the response: `resp['request']` is the
parsed request dict, with `dataset` overwritten by the resolved dataset's
formatted timestamp (api.py lines 296-297) and every key containing
"datetime" (`launch_datetime`, `stop_datetime`) re-encoded to RFC3339
(api.py lines 357-359). -/
structure EchoedRequest where
  version : Nat
  launch_latitude : Option ℚ
  launch_longitude : Option ℚ
  launch_datetime : Option String
  launch_altitude : Option ℚ
  format : Option String
  profile : Option String
  ascent_rate : Option ℚ
  burst_altitude : Option ℚ
  descent_rate : Option ℚ
  float_altitude : Option ℚ
  stop_datetime : Option String
  dataset : String
deriving DecidableEq, Repr

/-- Build the echoed request block from the parsed request. -/
def echoRequest (toRfc : ℚ → String) (req : ParsedRequest) (dsString : String) :
    EchoedRequest :=
  { version := req.version
    launch_latitude := req.launch_latitude
    launch_longitude := req.launch_longitude
    launch_datetime := req.launch_datetime.map toRfc
    launch_altitude := req.launch_altitude
    format := req.format
    profile := req.profile
    ascent_rate := req.ascent_rate
    burst_altitude := req.burst_altitude
    descent_rate := req.descent_rate
    float_altitude := req.float_altitude
    stop_datetime := req.stop_datetime.map toRfc
    dataset := dsString }

/-- The successful response dict of `run_prediction` (request-timing
metadata, added by the transport layer, is out of scope). -/
structure Response where
  request : EchoedRequest
  prediction : List RespStage
  launch_estimate : Option LaunchEstimate
  warnings : List (String × Nat)
deriving DecidableEq, Repr

/-- api.py lines 268-363, `run_prediction`: resolve the dataset (rewriting
the echoed `dataset` field), build the stage list, run the solver inside
the wrapping `try`, format the trajectory, and assemble the response. -/
def run_prediction (ctx : Context) (req : ParsedRequest) : Except Failure Response :=
  match pyGet req.dataset "KeyError" "'dataset'" with
  | .error e => .error e
  | .ok dsParam =>
  match resolveDataset (ctx.store dsParam) with
  | .error e => .error e
  | .ok tawhiri_ds =>
  match buildStages ctx req tawhiri_ds with
  | .error e => .error e
  | .ok stages =>
  match runSolverSection ctx req stages with
  | .error e => .error e
  | .ok result =>
  match formatPrediction ctx.toRfc3339 req result with
  | .error e => .error e
  | .ok (prediction, launch_estimate) =>
    .ok { request := echoRequest ctx.toRfc3339 req (formatDatasetTime tawhiri_ds.ds_time)
          prediction := prediction
          launch_estimate := launch_estimate
          warnings := ctx.warnings }

/-- What `main` (api.py lines 387-418) returns on success: a JSON response
or a file download (the byte-level formatter outputs are external). -/
inductive HttpOutput where
  | jsonResponse (resp : Response)
  | csvDownload (resp : Response)
  | kmlDownload (resp : Response)
deriving DecidableEq, Repr

/-- api.py lines 397-418: the output-format dispatch at the end of `main`.
`response["request"]["format"]` is compared against "csv", "kml", "json";
anything else raises `InternalException("Format not supported: " + ...)`.
(A `None` format would raise a `TypeError` at the string concatenation;
`parse_request` always stores a string.) -/
def formatDispatch (resp : Response) : Except Failure HttpOutput :=
  if resp.request.format = some "csv" then
    .ok (.csvDownload resp)
  else if resp.request.format = some "kml" then
    .ok (.kmlDownload resp)
  else if resp.request.format = some "json" then
    .ok (.jsonResponse resp)
  else
    match resp.request.format with
    | some f => .error (.api (.internalException ("Format not supported: " ++ f)))
    | none => .error (.unhandled "TypeError" "can only concatenate str (not NoneType) to str")

/-- api.py lines 387-418, `main`: parse the request, run the prediction,
dispatch on the output format (request-timing metadata omitted). -/
def main (pctx : ParseContext) (ctx : Context) (data : List (String × RawParam)) :
    Except Failure HttpOutput :=
  match parse_request pctx data with
  | .error e => .error e
  | .ok req =>
  match run_prediction ctx req with
  | .error e => .error e
  | .ok response => formatDispatch response

/-! Concrete fixtures used by the witness theorems. -/

/-- A raw query value that parses as the float `q`. -/
def rawFloat (q : ℚ) (s : String) : RawParam :=
  { asFloat := some q, asTimestamp := none, rawString := s }

/-- A raw query value that parses as the RFC3339 instant `t`. -/
def rawTime (t : ℚ) (s : String) : RawParam :=
  { asFloat := none, asTimestamp := some t, rawString := s }

/-- A raw query value that is only usable as a string. -/
def rawStr (s : String) : RawParam :=
  { asFloat := none, asTimestamp := none, rawString := s }

/-- A concrete resolved dataset time (2024-01-01 12:00 UTC). -/
def exampleDsTime : DateTime := { year := 2024, month := 1, day := 1, hour := 12 }

/-- A concrete dataset handle. -/
def exampleHandle : DatasetHandle := { ds_time := exampleDsTime }

/-- A store that always resolves to `exampleHandle`. -/
def exampleStore : DatasetParam → StoreOutcome := fun _ => .ok exampleHandle

/-- Concrete solver output points. -/
def examplePoint1 : TrajPoint := { dt := 100, lat := 51, lon := 1, alt := 10 }

/-- Second concrete solver output point. -/
def examplePoint2 : TrajPoint := { dt := 200, lat := 52, lon := 2, alt := 30000 }

/-- Third concrete solver output point. -/
def examplePoint3 : TrajPoint := { dt := 300, lat := 53, lon := 3, alt := 5 }

/-- A solver that always returns two stages of points. -/
def exampleSolve : SolverCall → SolverOutcome :=
  fun _ => .ok [[examplePoint1, examplePoint2], [examplePoint2, examplePoint3]]

/-- A concrete RFC3339 encoder stand-in (the real `strict_rfc3339` is an
external library). -/
def exampleRfc : ℚ → String := fun t => "rfc3339:" ++ toString t.num

/-- A concrete collaborator context for witness runs. -/
def exampleCtx : Context :=
  { store := exampleStore, solve := exampleSolve, toRfc3339 := exampleRfc
    elevation_api_url := some "http://ruaumoko", warnings := [] }

/-- A concrete parse-time context whose elevation lookup succeeds with 10m. -/
def examplePCtx : ParseContext := { elevation := .success 10 }

/-- A valid standard-profile query (no `launch_altitude`, no `dataset`). -/
def exampleData : List (String × RawParam) :=
  [ ("launch_latitude", rawFloat 51 "51.0")
  , ("launch_longitude", rawFloat 2 "2.0")
  , ("launch_datetime", rawTime 1704110400 "2024-01-01T12:00:00Z")
  , ("ascent_rate", rawFloat 5 "5")
  , ("burst_altitude", rawFloat 30000 "30000")
  , ("descent_rate", rawFloat 6 "6")
  , ("profile", rawStr "standard_profile")
  ]

/-- The same query with a reverse profile. -/
def exampleDataReverse : List (String × RawParam) :=
  [ ("launch_latitude", rawFloat 51 "51.0")
  , ("launch_longitude", rawFloat 2 "2.0")
  , ("launch_datetime", rawTime 1704110400 "2024-01-01T12:00:00Z")
  , ("ascent_rate", rawFloat 5 "5")
  , ("profile", rawStr "reverse_profile")
  ]

/-! Inversion toolkit for the embedding. -/

/-- A successful `pyGet` means the optional value was present. -/
theorem pyGet_ok {α : Type} (o : Option α) (n m : String) (v : α)
    (h : pyGet o n m = .ok v) : o = some v := by
  cases o with
  | none => exact absurd h (by simp [pyGet])
  | some w => simpa [pyGet] using h

/-- A required parameter extracted with a validator passed that validator. -/
theorem extractParameter_required_validator {α : Type} (data : List (String × RawParam))
    (p : String) (cast : RawParam → Option α) (v : α → Bool) (res : α)
    (h : extractParameter data p cast none false (some v) = .ok (some res)) :
    v res = true := by
  unfold extractParameter at h
  repeat' (first | split at h | cases h)
  all_goals simp_all

/-- A required parameter extracted with a validator carries the cast of the
raw value that was present under its key. -/
theorem extractParameter_required_value {α : Type} (data : List (String × RawParam))
    (p : String) (cast : RawParam → Option α) (v : α → Bool) (raw : RawParam) (r res : α)
    (hlook : data.lookup p = some raw) (hcast : cast raw = some r)
    (h : extractParameter data p cast none false (some v) = .ok (some res)) :
    res = r := by
  simp only [extractParameter, hlook, hcast] at h
  split at h
  · simp_all
  · cases h

/-- An extracted ascent rate passed the `x > 0` validator. -/
theorem extractAscentRate_pos (data : List (String × RawParam)) (v : ℚ)
    (h : extractAscentRate data = .ok (some v)) : 0 < v := by
  unfold extractAscentRate at h
  have := extractParameter_required_validator data "ascent_rate" (fun r => r.asFloat)
      (fun x => decide (0 < x)) v h
  simpa using this

/-- An extracted descent rate passed the `x > 0` validator. -/
theorem extractDescentRate_pos (data : List (String × RawParam)) (v : ℚ)
    (h : extractDescentRate data = .ok (some v)) : 0 < v := by
  unfold extractDescentRate at h
  have := extractParameter_required_validator data "descent_rate" (fun r => r.asFloat)
      (fun x => decide (0 < x)) v h
  simpa using this

/-- The value flowing out of the `ascent_rate` extraction is the float cast
of the raw value present under the key. -/
theorem ascent_stored (data : List (String × RawParam)) (raw : RawParam) (r : ℚ)
    (ar : Option ℚ) (arv : ℚ)
    (h1 : extractAscentRate data = .ok ar)
    (h2 : pyGet ar "TypeError" "ascent_rate is None" = .ok arv)
    (hlook : data.lookup "ascent_rate" = some raw) (hcast : raw.asFloat = some r) :
    arv = r := by
  have h3 := pyGet_ok _ _ _ _ h2
  subst h3
  exact extractParameter_required_value data "ascent_rate" (fun q => q.asFloat)
    (fun x => decide (0 < x)) raw r arv hlook hcast h1

/-- `ascent_stored`, phrased on the stored (clipped) field value. -/
theorem ascent_stored_eq (data : List (String × RawParam)) (raw : RawParam) (r : ℚ)
    (ar : Option ℚ) (arv : ℚ)
    (h1 : extractAscentRate data = .ok ar)
    (h2 : pyGet ar "TypeError" "ascent_rate is None" = .ok arv)
    (hlook : data.lookup "ascent_rate" = some raw) (hcast : raw.asFloat = some r) :
    some (rate_clip arv minimumRate) = some (rate_clip r minimumRate) := by
  rw [ascent_stored data raw r ar arv h1 h2 hlook hcast]

/-- `rate_clip` never returns less than its floor. -/
theorem rate_clip_ge (r m : ℚ) : m ≤ rate_clip r m := by
  rw [rate_clip]
  split
  · exact le_refl m
  · exact le_of_not_lt (by assumption)

/-- C7: for every valid request of any profile, every ascent or descent rate
stored in the parsed request is at least 0.2; a rate input strictly between
0 and 0.2 passes validation (the validator only demands positivity) and is
raised to 0.2 by `rate_clip` before being stored, while a rate input at
least 0.2 is stored unchanged; the stored ascent rate is always the clip of
the rate that was supplied. -/
theorem c7_rate_floor (pctx : ParseContext) (data : List (String × RawParam))
    (req : ParsedRequest) (h : parse_request pctx data = .ok req) :
    (∀ a, req.ascent_rate = some a → (0.2 : ℚ) ≤ a) ∧
    (∀ d, req.descent_rate = some d → (0.2 : ℚ) ≤ d) ∧
    (∀ r : ℚ, 0 < r → r < 0.2 → rate_clip r minimumRate = 0.2) ∧
    (∀ r : ℚ, (0.2 : ℚ) ≤ r → rate_clip r minimumRate = r) ∧
    (∀ raw r, data.lookup "ascent_rate" = some raw → raw.asFloat = some r → 0 < r →
      req.ascent_rate = some (rate_clip r minimumRate)) := by
  have hclip_low : ∀ r : ℚ, 0 < r → r < 0.2 → rate_clip r minimumRate = 0.2 := by
    intro r _ h2
    rw [minimumRate_eq, rate_clip, if_pos h2]
  have hclip_id : ∀ r : ℚ, (0.2 : ℚ) ≤ r → rate_clip r minimumRate = r := by
    intro r h1
    rw [minimumRate_eq, rate_clip, if_neg (not_lt.mpr h1)]
  have hge : ∀ r : ℚ, (0.2 : ℚ) ≤ rate_clip r minimumRate := by
    intro r
    rw [← minimumRate_eq]
    exact rate_clip_ge r minimumRate
  unfold parse_request at h
  repeat' (first | split at h | cases h)
  all_goals refine ⟨?_, ?_, hclip_low, hclip_id, ?_⟩
  all_goals try (intro a ha; cases ha; exact hge _)
  all_goals try (intro d hd; exact Option.noConfusion hd)
  all_goals
    intro raw r hlook hcast _
    exact ascent_stored_eq data raw r _ _ (by assumption) (by assumption) hlook hcast

/-- The request that `parse_request` produces from `exampleData` under
`examplePCtx`. -/
def exampleReqStandard : ParsedRequest :=
  { version := 1
    launch_latitude := some 51
    launch_longitude := some 2
    launch_datetime := some 1704110400
    launch_altitude := some 10
    format := some "json"
    profile := some "standard_profile"
    ascent_rate := some 5
    burst_altitude := some 30000
    descent_rate := some 6
    float_altitude := none
    stop_datetime := none
    dataset := some DatasetParam.latest }

/-- C7 witness: `c7_rate_floor` applied to the concrete standard request. -/
theorem c7_rate_floor_witness :
    (0.2 : ℚ) ≤ 5 ∧ (0.2 : ℚ) ≤ 6 ∧
    rate_clip (1/20) minimumRate = 0.2 ∧ rate_clip 5 minimumRate = 5 :=
  have h := c7_rate_floor examplePCtx exampleData exampleReqStandard (by decide)
  ⟨h.1 5 (by decide), h.2.1 6 (by decide),
   h.2.2.1 (1/20) (by norm_num) (by norm_num), h.2.2.2.1 5 (by norm_num)⟩

/-- A launch-altitude key that is absent resolves the extraction to `none`
(so the elevation lookup runs). -/
theorem launchAltitude_resolved (pctx : ParseContext) (data : List (String × RawParam))
    (o : Option ℚ)
    (habs : data.lookup "launch_altitude" = none)
    (h : extractLaunchAltitude data = .ok o) :
    some (resolveLaunchAltitude pctx.elevation o) = some (elevationLookup pctx.elevation) := by
  have ho : o = none := by
    simp [extractLaunchAltitude, extractParameter, habs] at h
    exact h.symm
  subst ho
  rfl

/-- C2: when `launch_altitude` is absent from the request, the parsed
request's altitude is exactly the elevation block's result, which is the
looked-up elevation on success and exactly `0.0` on every failure mode
(unreachable service, non-200 status, malformed body, missing result) —
no failure of the lookup surfaces as an error. -/
theorem c2_elevation_fallback (pctx : ParseContext) (data : List (String × RawParam))
    (req : ParsedRequest)
    (habs : data.lookup "launch_altitude" = none)
    (h : parse_request pctx data = .ok req) :
    req.launch_altitude = some (elevationLookup pctx.elevation) ∧
    (∀ e, elevationLookup (ElevationOutcome.success e) = e) ∧
    (∀ s, elevationLookup (ElevationOutcome.non200 s) = 0) ∧
    elevationLookup ElevationOutcome.malformedBody = 0 ∧
    elevationLookup ElevationOutcome.missingResult = 0 ∧
    elevationLookup ElevationOutcome.networkError = 0 := by
  refine ⟨?_, fun e => rfl, fun s => rfl, rfl, rfl, rfl⟩
  unfold parse_request at h
  repeat' (first | split at h | cases h)
  all_goals exact launchAltitude_resolved pctx data _ habs (by assumption)

/-- A parse-time context whose elevation lookup fails with a network error. -/
def examplePCtxFail : ParseContext := { elevation := .networkError }

/-- The request parsed from `exampleData` when the elevation lookup fails
(altitude defaulted to 0). -/
def exampleReqStandard0 : ParsedRequest :=
  { exampleReqStandard with launch_altitude := some 0 }

/-- C2 witness: `c2_elevation_fallback` applied to a concrete request with
an unreachable elevation service. -/
theorem c2_elevation_fallback_witness :
    exampleReqStandard0.launch_altitude = some 0 ∧
    elevationLookup (ElevationOutcome.success 7) = 7 ∧
    elevationLookup ElevationOutcome.networkError = 0 :=
  have h := c2_elevation_fallback examplePCtxFail exampleData exampleReqStandard0
    (by decide) (by decide)
  ⟨h.1.trans (by decide), h.2.1 7, h.2.2.2.2.2⟩

/-- Prepending an entry under a different key does not change a lookup. -/
theorem lookup_cons_ne {β : Type} (k k2 : String) (v : β) (l : List (String × β))
    (h : (k == k2) = false) : List.lookup k ((k2, v) :: l) = List.lookup k l := by
  simp [List.lookup, h]

/-- A present `profile` key is extracted as its raw string. -/
theorem extractProfile_present (data : List (String × RawParam)) (rawP : RawParam)
    (hp : data.lookup "profile" = some rawP) :
    extractProfile data = .ok (some rawP.rawString) := by
  simp [extractProfile, extractParameter, hp]

/-- A present `format` key is extracted as its raw string. -/
theorem extractFormat_present (data : List (String × RawParam)) (rawF : RawParam)
    (hf : data.lookup "format" = some rawF) :
    extractFormat data = .ok (some rawF.rawString) := by
  simp [extractFormat, extractParameter, hf]

/-- When the profile string matches none of the three known profiles,
`parse_request` fails with the unknown-profile `RequestException` as soon
as the profile branch is reached (dataset extraction is behind the three
known branches). -/
theorem parse_unknown_profile_aux (pctx : ParseContext) (data : List (String × RawParam))
    (vlat vlon vdt valt : Option ℚ) (vfm : Option String) (p : String)
    (hlat : extractLaunchLatitude data = .ok vlat)
    (hlon : extractLaunchLongitude data = .ok vlon)
    (hdt : extractLaunchDatetime data = .ok vdt)
    (halt : extractLaunchAltitude data = .ok valt)
    (hfm : extractFormat data = .ok vfm)
    (hprof : extractProfile data = .ok (some p))
    (h1 : p ≠ PROFILE_STANDARD) (h2 : p ≠ PROFILE_FLOAT) (h3 : p ≠ PROFILE_REVERSE) :
    parse_request pctx data = .error (.api (.requestException
      ("Unknown profile '" ++ p ++ "'."))) := by
  simp only [parse_request, hlat, hlon, hdt, halt, hfm, hprof]
  rw [if_neg (fun hh => h1 (Option.some.inj hh)),
      if_neg (fun hh => h2 (Option.some.inj hh)),
      if_neg (fun hh => h3 (Option.some.inj hh))]
  rfl

/-- C4: a request whose `profile` value is none of the three known profile
strings makes `parse_request` fail with the 400 `RequestException` whose
description names the unknown profile; the prediction pipeline never runs
(for every collaborator context `main` returns that same parse error, so
the dataset store is never consulted), and the dataset parameter is not
extracted (adding or changing a `dataset` entry cannot alter the
outcome). -/
theorem c4_unknown_profile (pctx : ParseContext) (data : List (String × RawParam))
    (rawP : RawParam)
    (hp : data.lookup "profile" = some rawP)
    (h1 : rawP.rawString ≠ PROFILE_STANDARD)
    (h2 : rawP.rawString ≠ PROFILE_FLOAT)
    (h3 : rawP.rawString ≠ PROFILE_REVERSE)
    (hlat : ∃ v, extractLaunchLatitude data = .ok v)
    (hlon : ∃ v, extractLaunchLongitude data = .ok v)
    (hdt : ∃ v, extractLaunchDatetime data = .ok v)
    (halt : ∃ v, extractLaunchAltitude data = .ok v)
    (hfm : ∃ v, extractFormat data = .ok v) :
    parse_request pctx data = .error (.api (.requestException
      ("Unknown profile '" ++ rawP.rawString ++ "'."))) ∧
    (∀ ctx : Context, main pctx ctx data = .error (.api (.requestException
      ("Unknown profile '" ++ rawP.rawString ++ "'.")))) ∧
    (∀ dsRaw : RawParam, parse_request pctx (("dataset", dsRaw) :: data) =
      parse_request pctx data) ∧
    statusCode (.requestException ("Unknown profile '" ++ rawP.rawString ++ "'.")) = 400 ∧
    handle_exception (.api (.requestException
      ("Unknown profile '" ++ rawP.rawString ++ "'."))) =
      some ({ errType := "RequestException"
              description := "Unknown profile '" ++ rawP.rawString ++ "'." }, 400) := by
  obtain ⟨vlat, hlat⟩ := hlat
  obtain ⟨vlon, hlon⟩ := hlon
  obtain ⟨vdt, hdt⟩ := hdt
  obtain ⟨valt, halt⟩ := halt
  obtain ⟨vfm, hfm⟩ := hfm
  have hprof := extractProfile_present data rawP hp
  have hparse := parse_unknown_profile_aux pctx data vlat vlon vdt valt vfm
    rawP.rawString hlat hlon hdt halt hfm hprof h1 h2 h3
  have hcons : ∀ dsRaw : RawParam,
      parse_request pctx (("dataset", dsRaw) :: data) = parse_request pctx data := by
    intro dsRaw
    have clat : extractLaunchLatitude (("dataset", dsRaw) :: data) = .ok vlat := by
      rw [extractLaunchLatitude, extractParameter,
        lookup_cons_ne _ _ _ _ (by decide)]
      rw [extractLaunchLatitude, extractParameter] at hlat
      exact hlat
    have clon : extractLaunchLongitude (("dataset", dsRaw) :: data) = .ok vlon := by
      rw [extractLaunchLongitude, extractParameter,
        lookup_cons_ne _ _ _ _ (by decide)]
      rw [extractLaunchLongitude, extractParameter] at hlon
      exact hlon
    have cdt : extractLaunchDatetime (("dataset", dsRaw) :: data) = .ok vdt := by
      rw [extractLaunchDatetime, extractParameter,
        lookup_cons_ne _ _ _ _ (by decide)]
      rw [extractLaunchDatetime, extractParameter] at hdt
      exact hdt
    have calt : extractLaunchAltitude (("dataset", dsRaw) :: data) = .ok valt := by
      rw [extractLaunchAltitude, extractParameter,
        lookup_cons_ne _ _ _ _ (by decide)]
      rw [extractLaunchAltitude, extractParameter] at halt
      exact halt
    have cfm : extractFormat (("dataset", dsRaw) :: data) = .ok vfm := by
      rw [extractFormat, extractParameter,
        lookup_cons_ne _ _ _ _ (by decide)]
      rw [extractFormat, extractParameter] at hfm
      exact hfm
    have cprof : extractProfile (("dataset", dsRaw) :: data) = .ok (some rawP.rawString) := by
      rw [extractProfile, extractParameter,
        lookup_cons_ne _ _ _ _ (by decide)]
      rw [extractProfile, extractParameter] at hprof
      exact hprof
    rw [hparse]
    exact parse_unknown_profile_aux pctx (("dataset", dsRaw) :: data) vlat vlon vdt valt
      vfm rawP.rawString clat clon cdt calt cfm cprof h1 h2 h3
  refine ⟨hparse, ?_, hcons, rfl, rfl⟩
  intro ctx
  rw [main, hparse]

/-- C4 witness: `c4_unknown_profile` applied to a concrete request with
profile string "bogus". -/
theorem c4_unknown_profile_witness :
    parse_request examplePCtx
      [ ("launch_latitude", rawFloat 51 "51.0")
      , ("launch_longitude", rawFloat 2 "2.0")
      , ("launch_datetime", rawTime 1704110400 "2024-01-01T12:00:00Z")
      , ("profile", rawStr "bogus")
      ] = .error (.api (.requestException "Unknown profile 'bogus'.")) ∧
    main examplePCtx exampleCtx
      [ ("launch_latitude", rawFloat 51 "51.0")
      , ("launch_longitude", rawFloat 2 "2.0")
      , ("launch_datetime", rawTime 1704110400 "2024-01-01T12:00:00Z")
      , ("profile", rawStr "bogus")
      ] = .error (.api (.requestException "Unknown profile 'bogus'.")) ∧
    statusCode (.requestException "Unknown profile 'bogus'.") = 400 :=
  have h := c4_unknown_profile examplePCtx
    [ ("launch_latitude", rawFloat 51 "51.0")
    , ("launch_longitude", rawFloat 2 "2.0")
    , ("launch_datetime", rawTime 1704110400 "2024-01-01T12:00:00Z")
    , ("profile", rawStr "bogus")
    ] (rawStr "bogus") (by decide) (by decide) (by decide) (by decide)
    ⟨some 51, by decide⟩ ⟨some 2, by decide⟩ ⟨some 1704110400, by decide⟩
    ⟨none, by decide⟩ ⟨some "json", by decide⟩
  ⟨h.1, h.2.1 exampleCtx, h.2.2.2.1⟩

/-- The request that `parse_request` produces from `exampleDataReverse`. -/
def exampleReqReverse : ParsedRequest :=
  { version := 1
    launch_latitude := some 51
    launch_longitude := some 2
    launch_datetime := some 1704110400
    launch_altitude := some 10
    format := some "json"
    profile := some "reverse_profile"
    ascent_rate := some 5
    burst_altitude := none
    descent_rate := none
    float_altitude := none
    stop_datetime := none
    dataset := some DatasetParam.latest }

/-- The response `run_prediction exampleCtx exampleReqStandard` produces. -/
def exampleRespStandard : Response :=
  { request :=
      { version := 1, launch_latitude := some 51, launch_longitude := some 2
        launch_datetime := some "rfc3339:1704110400", launch_altitude := some 10
        format := some "json", profile := some "standard_profile"
        ascent_rate := some 5, burst_altitude := some 30000, descent_rate := some 6
        float_altitude := none, stop_datetime := none
        dataset := "2024-01-01T12:00:00Z" }
    prediction :=
      [ { stage := "ascent"
          trajectory :=
            [ { latitude := 51, longitude := 1, altitude := 10, datetime := "rfc3339:100" }
            , { latitude := 52, longitude := 2, altitude := 30000, datetime := "rfc3339:200" } ] }
      , { stage := "descent"
          trajectory :=
            [ { latitude := 52, longitude := 2, altitude := 30000, datetime := "rfc3339:200" }
            , { latitude := 53, longitude := 3, altitude := 5, datetime := "rfc3339:300" } ] } ]
    launch_estimate := none
    warnings := [] }

/-- The response `run_prediction exampleCtx exampleReqReverse` produces. -/
def exampleRespReverse : Response :=
  { request :=
      { version := 1, launch_latitude := some 51, launch_longitude := some 2
        launch_datetime := some "rfc3339:1704110400", launch_altitude := some 10
        format := some "json", profile := some "reverse_profile"
        ascent_rate := some 5, burst_altitude := none, descent_rate := none
        float_altitude := none, stop_datetime := none
        dataset := "2024-01-01T12:00:00Z" }
    prediction :=
      [ { stage := "ascent"
          trajectory :=
            [ { latitude := 51, longitude := 1, altitude := 10, datetime := "rfc3339:100" }
            , { latitude := 52, longitude := 2, altitude := 30000, datetime := "rfc3339:200" } ] }
      , { stage := "descent"
          trajectory :=
            [ { latitude := 52, longitude := 2, altitude := 30000, datetime := "rfc3339:200" }
            , { latitude := 53, longitude := 3, altitude := 5, datetime := "rfc3339:300" } ] } ]
    launch_estimate := some { latitude := 53, longitude := 3, altitude := 5
                              datetime := "rfc3339:1704110400" }
    warnings := [] }

/-- When the request holds the reverse profile and its launch fields, the
solver call is built with `dt = -60.0` and the request's fields. -/
theorem mkSolverCall_rev (req : ParsedRequest) (stages : StageSpec) (t0 lat lon alt : ℚ)
    (h0 : req.profile = some PROFILE_REVERSE)
    (h1 : req.launch_datetime = some t0) (h2 : req.launch_latitude = some lat)
    (h3 : req.launch_longitude = some lon) (h4 : req.launch_altitude = some alt) :
    mkSolverCall req stages =
      .ok { launch_datetime := t0, launch_latitude := lat, launch_longitude := lon
            launch_altitude := alt, stages := stages, dt := some (-60 : ℚ) } := by
  simp [mkSolverCall, pyGet, h0, h1, h2, h3, h4]

/-- When the request holds a non-reverse profile and its launch fields, the
solver call is built with no `dt` argument and the request's fields. -/
theorem mkSolverCall_fwd (req : ParsedRequest) (stages : StageSpec) (t0 lat lon alt : ℚ)
    (p : String)
    (h0 : req.profile = some p) (hne : p ≠ PROFILE_REVERSE)
    (h1 : req.launch_datetime = some t0) (h2 : req.launch_latitude = some lat)
    (h3 : req.launch_longitude = some lon) (h4 : req.launch_altitude = some alt) :
    mkSolverCall req stages =
      .ok { launch_datetime := t0, launch_latitude := lat, launch_longitude := lon
            launch_altitude := alt, stages := stages, dt := none } := by
  simp [mkSolverCall, pyGet, h0, h1, h2, h3, h4, hne]

/-- C1: for a reverse request the solver is invoked with `dt = -60.0`; for a
standard or float request the solver is invoked with no `dt` (its forward
default).  With the same launch fields and stage list, the two constructed
calls are the two records below, identical in every field except `dt`. -/
theorem c1_reverse_dt (req : ParsedRequest) (stages : StageSpec) (t0 lat lon alt : ℚ)
    (p : String)
    (h1 : req.launch_datetime = some t0) (h2 : req.launch_latitude = some lat)
    (h3 : req.launch_longitude = some lon) (h4 : req.launch_altitude = some alt)
    (hp : p = PROFILE_STANDARD ∨ p = PROFILE_FLOAT) :
    mkSolverCall { req with profile := some PROFILE_REVERSE } stages =
      .ok { launch_datetime := t0, launch_latitude := lat, launch_longitude := lon
            launch_altitude := alt, stages := stages, dt := some (-60 : ℚ) } ∧
    mkSolverCall { req with profile := some p } stages =
      .ok { launch_datetime := t0, launch_latitude := lat, launch_longitude := lon
            launch_altitude := alt, stages := stages, dt := none } :=
  ⟨mkSolverCall_rev _ stages t0 lat lon alt rfl h1 h2 h3 h4,
   mkSolverCall_fwd _ stages t0 lat lon alt p rfl
     (by rcases hp with h | h <;> subst h <;> decide) h1 h2 h3 h4⟩

/-- C1 witness: the two calls built from the concrete reverse request. -/
theorem c1_reverse_dt_witness :
    mkSolverCall { exampleReqReverse with profile := some PROFILE_REVERSE }
        (StageSpec.reverseProfile 5 exampleHandle (some "http://ruaumoko")) =
      .ok { launch_datetime := 1704110400, launch_latitude := 51, launch_longitude := 2
            launch_altitude := 10
            stages := StageSpec.reverseProfile 5 exampleHandle (some "http://ruaumoko")
            dt := some (-60 : ℚ) } ∧
    mkSolverCall { exampleReqReverse with profile := some PROFILE_STANDARD }
        (StageSpec.reverseProfile 5 exampleHandle (some "http://ruaumoko")) =
      .ok { launch_datetime := 1704110400, launch_latitude := 51, launch_longitude := 2
            launch_altitude := 10
            stages := StageSpec.reverseProfile 5 exampleHandle (some "http://ruaumoko")
            dt := none } :=
  c1_reverse_dt exampleReqReverse
    (StageSpec.reverseProfile 5 exampleHandle (some "http://ruaumoko"))
    1704110400 51 2 10 PROFILE_STANDARD
    (by decide) (by decide) (by decide) (by decide) (Or.inl rfl)

/-- C3 counterexample: a dataset-resolution failure that is neither an
IOError nor a ValueError is not converted to the 404 dataset error kind: it
propagates as an unhandled exception, for which the API error handler
produces no structured body at all. -/
theorem c3_counterexample :
    resolveDataset (StoreOutcome.otherError "TypeError" "unsupported operand") =
      .error (.unhandled "TypeError" "unsupported operand") ∧
    handle_exception (.unhandled "TypeError" "unsupported operand") = none :=
  ⟨rfl, rfl⟩

/-- C3 (amended): an IOError from the store raises the 404
`InvalidDatasetException` with description "No matching dataset found.";
a ValueError raises the 404 `InvalidDatasetException` carrying the
ValueError's own message; any other exception propagates unhandled (it is
not converted to the 404 dataset kind and gets no structured error
body). -/
theorem c3_dataset_resolution (out : StoreOutcome) :
    (out = .ioError → resolveDataset out =
      .error (.api (.invalidDatasetException "No matching dataset found.")) ∧
      statusCode (.invalidDatasetException "No matching dataset found.") = 404) ∧
    (∀ msg, out = .valueError msg → resolveDataset out =
      .error (.api (.invalidDatasetException msg)) ∧
      statusCode (.invalidDatasetException msg) = 404) ∧
    (∀ n m, out = .otherError n m →
      resolveDataset out = .error (.unhandled n m) ∧
      handle_exception (.unhandled n m) = none) := by
  refine ⟨?_, ?_, ?_⟩ <;> intros <;> subst_vars <;> exact ⟨rfl, rfl⟩

/-- C3 witness: the amended theorem applied to the IOError outcome. -/
theorem c3_dataset_resolution_witness :
    resolveDataset .ioError =
      .error (.api (.invalidDatasetException "No matching dataset found.")) ∧
    statusCode (.invalidDatasetException "No matching dataset found.") = 404 :=
  (c3_dataset_resolution .ioError).1 rfl

/-- C6: any exception raised by the solver call is caught and re-raised as
the single 500 `PredictionException`, with the original solver error text
embedded in the new description; when the run reaches the solver, the whole
prediction fails with exactly that error. -/
theorem c6_solver_wrapped (ctx : Context) (req : ParsedRequest) (stages : StageSpec)
    (msg : String) (call : SolverCall)
    (hcall : mkSolverCall req stages = .ok call)
    (hsolve : ctx.solve call = .raised msg) :
    runSolverSection ctx req stages = .error (.api (.predictionException
      ("Prediction did not complete: '" ++ msg ++ "'."))) ∧
    (∃ pre post, "Prediction did not complete: '" ++ msg ++ "'." = pre ++ msg ++ post) ∧
    statusCode (.predictionException ("Prediction did not complete: '" ++ msg ++ "'.")) = 500 ∧
    (∀ dsParam hdl, req.dataset = some dsParam →
      resolveDataset (ctx.store dsParam) = .ok hdl →
      buildStages ctx req hdl = .ok stages →
      run_prediction ctx req = .error (.api (.predictionException
        ("Prediction did not complete: '" ++ msg ++ "'.")))) := by
  have hfirst : runSolverSection ctx req stages = .error (.api (.predictionException
      ("Prediction did not complete: '" ++ msg ++ "'."))) := by
    simp only [runSolverSection, solverAttempt, hcall, hsolve]
    rfl
  refine ⟨hfirst, ⟨"Prediction did not complete: '", "'.", rfl⟩, rfl, ?_⟩
  intro dsParam hdl hds hres hstages
  simp only [run_prediction, pyGet, hds, hres, hstages, hfirst]

/-- A collaborator context whose solver always raises. -/
def exampleCtxFail : Context :=
  { exampleCtx with solve := fun _ => .raised "wind dataset out of range" }

/-- C6 witness: the concrete standard request against a raising solver. -/
theorem c6_solver_wrapped_witness :
    runSolverSection exampleCtxFail exampleReqStandard
        (StageSpec.standardProfile 5 30000 6 exampleHandle (some "http://ruaumoko")) =
      .error (.api (.predictionException
        "Prediction did not complete: 'wind dataset out of range'.")) ∧
    run_prediction exampleCtxFail exampleReqStandard =
      .error (.api (.predictionException
        "Prediction did not complete: 'wind dataset out of range'.")) :=
  have h := c6_solver_wrapped exampleCtxFail exampleReqStandard
    (StageSpec.standardProfile 5 30000 6 exampleHandle (some "http://ruaumoko"))
    "wind dataset out of range"
    { launch_datetime := 1704110400, launch_latitude := 51, launch_longitude := 2
      launch_altitude := 10
      stages := StageSpec.standardProfile 5 30000 6 exampleHandle (some "http://ruaumoko")
      dt := none }
    (by decide) rfl
  ⟨h.1, h.2.2.2 DatasetParam.latest exampleHandle (by decide) (by decide) (by decide)⟩

/-- A successful `pyLast` is the list's last element. -/
theorem pyLast_ok {α : Type} (l : List α) (v : α) (h : pyLast l = .ok v) :
    l.getLast? = some v := by
  unfold pyLast at h
  split at h
  · cases h; assumption
  · cases h

/-- C8 counterexample: two labels against one solver stage make
`_parse_stages` raise a bare `AssertionError`; the API error handler does
not handle it (no structured 500 body, not the `InternalException`
kind). -/
theorem c8_counterexample :
    _parse_stages exampleRfc ["ascent", "descent"] [[]] =
      .error (.unhandled "AssertionError" "len(labels) == len(data)") ∧
    handle_exception (.unhandled "AssertionError" "len(labels) == len(data)") = none :=
  ⟨rfl, rfl⟩

/-- C8 (amended): response assembly labels stages positionally — standard
and reverse get `["ascent", "descent"]`, float gets `["ascent", "float"]` —
and whenever the number of labels differs from the number of stages the
solver returned, `_parse_stages` fails with an assertion error, which is
not an `APIException` and is not mapped to the structured error body. -/
theorem c8_stage_labels (toRfc : ℚ → String) (labels : List String)
    (data : List (List TrajPoint)) :
    (labels.length ≠ data.length →
      _parse_stages toRfc labels data =
        .error (.unhandled "AssertionError" "len(labels) == len(data)") ∧
      handle_exception (.unhandled "AssertionError" "len(labels) == len(data)") = none) ∧
    (labels.length = data.length →
      ∃ stages, _parse_stages toRfc labels data = .ok stages ∧
        stages.map RespStage.stage = labels) ∧
    (∀ req res pr le, req.profile = some PROFILE_STANDARD →
      formatPrediction toRfc req res = .ok (pr, le) →
      _parse_stages toRfc ["ascent", "descent"] res = .ok pr ∧ le = none) ∧
    (∀ req res pr le, req.profile = some PROFILE_FLOAT →
      formatPrediction toRfc req res = .ok (pr, le) →
      _parse_stages toRfc ["ascent", "float"] res = .ok pr ∧ le = none) ∧
    (∀ req res pr le, req.profile = some PROFILE_REVERSE →
      formatPrediction toRfc req res = .ok (pr, le) →
      _parse_stages toRfc ["ascent", "descent"] res = .ok pr) := by
  refine ⟨?_, ?_, ?_, ?_, ?_⟩
  · intro hne
    exact ⟨by rw [_parse_stages, if_neg hne], rfl⟩
  · intro heq
    refine ⟨_, by rw [_parse_stages, if_pos heq], ?_⟩
    rw [List.map_map]
    have : (RespStage.stage ∘ fun p : String × List TrajPoint =>
        ({ stage := p.1
           trajectory := p.2.map (fun q =>
             { latitude := q.lat, longitude := q.lon, altitude := q.alt
               datetime := toRfc q.dt }) } : RespStage)) = Prod.fst := rfl
    rw [this]
    exact List.map_fst_zip labels data heq.le
  · intro req res pr le hprof h
    simp only [formatPrediction, pyGet, hprof, ite_true] at h
    repeat' (first | split at h | cases h)
    exact ⟨by assumption, rfl⟩
  · intro req res pr le hprof h
    simp only [formatPrediction, pyGet, hprof, ite_true] at h
    rw [if_neg (by decide)] at h
    repeat' (first | split at h | cases h)
    exact ⟨by assumption, rfl⟩
  · intro req res pr le hprof h
    simp only [formatPrediction, pyGet, hprof, ite_true] at h
    rw [if_neg (by decide), if_neg (by decide)] at h
    repeat' (first | split at h | cases h)
    assumption

/-- C8 witness: the amended theorem applied at a concrete mismatch (two
labels, no stages) and at a concrete match. -/
theorem c8_stage_labels_witness :
    (_parse_stages exampleRfc ["ascent", "descent"] [] =
       .error (.unhandled "AssertionError" "len(labels) == len(data)") ∧
     handle_exception (.unhandled "AssertionError" "len(labels) == len(data)") = none) ∧
    (∃ stages, _parse_stages exampleRfc ["ascent", "descent"]
        [[examplePoint1], [examplePoint2]] = .ok stages ∧
      stages.map RespStage.stage = ["ascent", "descent"]) :=
  ⟨(c8_stage_labels exampleRfc ["ascent", "descent"] []).1 (by decide),
   (c8_stage_labels exampleRfc ["ascent", "descent"]
      [[examplePoint1], [examplePoint2]]).2.1 (by decide)⟩

/-- The formatted dataset timestamp is never the literal string "latest"
(it always carries the 7-character suffix ":00:00Z" plus a date). -/
theorem formatDatasetTime_ne_latest (t : DateTime) : formatDatasetTime t ≠ "latest" := by
  intro h
  have hlen := congrArg String.length h
  rw [formatDatasetTime] at hlen
  simp only [String.length_append,
    show ("-" : String).length = 1 from rfl,
    show ("T" : String).length = 1 from rfl,
    show (":00:00Z" : String).length = 7 from rfl,
    show ("latest" : String).length = 6 from rfl] at hlen
  omega

/-- C5: every successful prediction echoes, as the request block's
`dataset`, the formatted hour-truncated timestamp of the dataset handle the
store resolved — a string ending in ":00:00Z" (minutes and seconds forced
to zero) that is never the literal "latest". -/
theorem c5_dataset_echo (ctx : Context) (req : ParsedRequest) (resp : Response)
    (h : run_prediction ctx req = .ok resp) :
    ∃ dsParam hdl, req.dataset = some dsParam ∧
      resolveDataset (ctx.store dsParam) = .ok hdl ∧
      resp.request.dataset = formatDatasetTime hdl.ds_time ∧
      (∃ pre, formatDatasetTime hdl.ds_time = pre ++ ":00:00Z") ∧
      resp.request.dataset ≠ "latest" := by
  unfold run_prediction at h
  repeat' (first | split at h | cases h)
  exact ⟨_, _, pyGet_ok _ _ _ _ (by assumption), by assumption, rfl, ⟨_, rfl⟩,
    formatDatasetTime_ne_latest _⟩

/-- C5 witness: `c5_dataset_echo` at the concrete standard run. -/
theorem c5_dataset_echo_witness :
    ∃ dsParam hdl, exampleReqStandard.dataset = some dsParam ∧
      resolveDataset (exampleCtx.store dsParam) = .ok hdl ∧
      exampleRespStandard.request.dataset = formatDatasetTime hdl.ds_time ∧
      (∃ pre, formatDatasetTime hdl.ds_time = pre ++ ":00:00Z") ∧
      exampleRespStandard.request.dataset ≠ "latest" :=
  c5_dataset_echo exampleCtx exampleReqStandard exampleRespStandard (by decide)

/-- Inversion of the reverse branch of `formatPrediction`: its
`launch_estimate` is built from the last point of the last stage. -/
theorem formatPrediction_reverse_inv (toRfc : ℚ → String) (req : ParsedRequest)
    (result : List (List TrajPoint)) (pr : List RespStage) (le : Option LaunchEstimate)
    (hprof : req.profile = some PROFILE_REVERSE)
    (h : formatPrediction toRfc req result = .ok (pr, le)) :
    ∃ lastStage site ldt,
      pr.getLast? = some lastStage ∧
      lastStage.trajectory.getLast? = some site ∧
      le = some { latitude := site.latitude, longitude := site.longitude
                  altitude := site.altitude, datetime := toRfc ldt } := by
  simp only [formatPrediction, pyGet, hprof, ite_true] at h
  rw [if_neg (by decide), if_neg (by decide)] at h
  repeat' (first | split at h | cases h)
  exact ⟨_, _, _, pyLast_ok _ _ (by assumption), pyLast_ok _ _ (by assumption), rfl⟩

/-- The standard and float branches of `formatPrediction` produce no
`launch_estimate`. -/
theorem formatPrediction_fwd_none (toRfc : ℚ → String) (req : ParsedRequest)
    (result : List (List TrajPoint)) (pr : List RespStage) (le : Option LaunchEstimate)
    (hor : req.profile = some PROFILE_STANDARD ∨ req.profile = some PROFILE_FLOAT)
    (h : formatPrediction toRfc req result = .ok (pr, le)) : le = none := by
  rcases hor with hprof | hprof
  · simp only [formatPrediction, pyGet, hprof, ite_true] at h
    repeat' (first | split at h | cases h)
    rfl
  · simp only [formatPrediction, pyGet, hprof, ite_true] at h
    rw [if_neg (by decide)] at h
    repeat' (first | split at h | cases h)
    rfl

/-- C9: a successful reverse prediction carries a `launch_estimate` whose
latitude, longitude and altitude are exactly those of the last trajectory
point of the last stage in the response; standard and float predictions
carry no `launch_estimate`. -/
theorem c9_launch_estimate (ctx : Context) (req : ParsedRequest) (resp : Response)
    (h : run_prediction ctx req = .ok resp) :
    (req.profile = some PROFILE_REVERSE →
      ∃ est lastStage lastPoint,
        resp.launch_estimate = some est ∧
        resp.prediction.getLast? = some lastStage ∧
        lastStage.trajectory.getLast? = some lastPoint ∧
        est.latitude = lastPoint.latitude ∧
        est.longitude = lastPoint.longitude ∧
        est.altitude = lastPoint.altitude) ∧
    ((req.profile = some PROFILE_STANDARD ∨ req.profile = some PROFILE_FLOAT) →
      resp.launch_estimate = none) := by
  unfold run_prediction at h
  repeat' (first | split at h | cases h)
  constructor
  · intro hprof
    obtain ⟨lastStage, site, ldt, hpr, hsite, hle⟩ :=
      formatPrediction_reverse_inv ctx.toRfc3339 req _ _ _ hprof (by assumption)
    exact ⟨_, lastStage, site, hle, hpr, hsite, rfl, rfl, rfl⟩
  · intro hor
    exact formatPrediction_fwd_none ctx.toRfc3339 req _ _ _ hor (by assumption)

/-- C9 witness: `c9_launch_estimate` at the concrete reverse and standard
runs. -/
theorem c9_launch_estimate_witness :
    (∃ est lastStage lastPoint,
      exampleRespReverse.launch_estimate = some est ∧
      exampleRespReverse.prediction.getLast? = some lastStage ∧
      lastStage.trajectory.getLast? = some lastPoint ∧
      est.latitude = lastPoint.latitude ∧
      est.longitude = lastPoint.longitude ∧
      est.altitude = lastPoint.altitude) ∧
    exampleRespStandard.launch_estimate = none :=
  ⟨(c9_launch_estimate exampleCtx exampleReqReverse exampleRespReverse
      (by decide)).1 (by decide),
   (c9_launch_estimate exampleCtx exampleReqStandard exampleRespStandard
      (by decide)).2 (Or.inl (by decide))⟩

/-- `parse_request` stores the `format` extraction result unchanged (no
validator is applied to it). -/
theorem parse_format_eq (pctx : ParseContext) (data : List (String × RawParam))
    (req : ParsedRequest) (h : parse_request pctx data = .ok req) :
    extractFormat data = .ok req.format := by
  unfold parse_request at h
  repeat' (first | split at h | cases h)
  all_goals assumption

/-- `run_prediction` echoes the request's format unchanged. -/
theorem run_format_eq (ctx : Context) (req : ParsedRequest) (resp : Response)
    (h : run_prediction ctx req = .ok resp) :
    resp.request.format = req.format := by
  unfold run_prediction at h
  repeat' (first | split at h | cases h)
  all_goals rfl

/-- The output dispatch on an unknown format string raises the
`InternalException` naming the format. -/
theorem formatDispatch_unknown (resp : Response) (s : String)
    (hs : resp.request.format = some s)
    (h1 : s ≠ "json") (h2 : s ≠ "csv") (h3 : s ≠ "kml") :
    formatDispatch resp = .error (.api (.internalException
      ("Format not supported: " ++ s))) := by
  simp only [formatDispatch, hs, Option.some.injEq]
  rw [if_neg h2, if_neg h3, if_neg h1]

/-- C10: the format parameter is not validated at extraction — any format
string is stored as-is and the prediction runs to completion — and a
request whose format is none of json/csv/kml then fails at the output
dispatch with the 500 `InternalException` naming the format, not with a
400 client-input error. -/
theorem c10_format_dispatch (pctx : ParseContext) (ctx : Context)
    (data : List (String × RawParam)) (req : ParsedRequest) (resp : Response)
    (rawF : RawParam)
    (hf : data.lookup "format" = some rawF)
    (h1 : rawF.rawString ≠ "json") (h2 : rawF.rawString ≠ "csv")
    (h3 : rawF.rawString ≠ "kml")
    (hreq : parse_request pctx data = .ok req)
    (hrun : run_prediction ctx req = .ok resp) :
    req.format = some rawF.rawString ∧
    main pctx ctx data = .error (.api (.internalException
      ("Format not supported: " ++ rawF.rawString))) ∧
    statusCode (.internalException ("Format not supported: " ++ rawF.rawString)) = 500 ∧
    statusCode (.internalException ("Format not supported: " ++ rawF.rawString)) ≠ 400 := by
  have hfmt : req.format = some rawF.rawString := by
    have hA := parse_format_eq pctx data req hreq
    rw [extractFormat_present data rawF hf] at hA
    exact (Except.ok.inj hA).symm
  have hdisp := formatDispatch_unknown resp rawF.rawString
    (by rw [run_format_eq ctx req resp hrun, hfmt]) h1 h2 h3
  refine ⟨hfmt, ?_, rfl, by simp [statusCode]⟩
  simp only [main, hreq, hrun, hdisp]

/-- The standard query with an unsupported format value. -/
def exampleDataXml : List (String × RawParam) :=
  exampleData ++ [("format", rawStr "xml")]

/-- The request parsed from `exampleDataXml`. -/
def exampleReqXml : ParsedRequest :=
  { exampleReqStandard with format := some "xml" }

/-- The response of the run for `exampleReqXml`. -/
def exampleRespXml : Response :=
  { exampleRespStandard with
      request := { exampleRespStandard.request with format := some "xml" } }

/-- C10 witness: `c10_format_dispatch` at the concrete "xml" request. -/
theorem c10_format_dispatch_witness :
    exampleReqXml.format = some "xml" ∧
    main examplePCtx exampleCtx exampleDataXml = .error (.api (.internalException
      "Format not supported: xml")) ∧
    statusCode (.internalException "Format not supported: xml") = 500 :=
  have h := c10_format_dispatch examplePCtx exampleCtx exampleDataXml exampleReqXml
    exampleRespXml (rawStr "xml") (by decide) (by decide) (by decide) (by decide)
    (by decide) (by decide)
  ⟨h.1, h.2.1, h.2.2.1⟩

end Tawhiri
